import Mathlib

/-!
Shallow embedding of the CloudSecret controller's `Reconcile` method
(`controllers/cloudsecret_controller.go`) together with proofs of the
behavioural properties stated in its specification.

Modelling conventions.  The strings the Go code carries around (logical
keys, external reference locators, error messages, object metadata) are
never inspected by `Reconcile`, so they are modelled as abstract
identifiers of type `Nat`.  Durations are in nanoseconds, exactly as Go's
`time.Duration` (so `time.Second = 1000000000`); payload bytes are
`List Nat`.  The Go map `Spec.Data` is modelled as an association list of
`(key, reference)` pairs; a Go map always has pairwise distinct keys, so
theorems that depend on key uniqueness carry a `Nodup` hypothesis on the
key column.

The two external collaborators are modelled as pure inputs of one
reconciliation cycle:
* the Secret Resolver (`GcpSecrets.AccessSecretVersion`) as a function
  `Nat → Option Bytes`, `none` meaning the call returned an error;
* the State Store (the controller-runtime client) as the current content
  of the child `Secret` slot (`Option Secret`, the store keyed at
  `GetChildSecretKey`), a parent slot (`Option CloudSecret`, `none`
  meaning the parent lookup reports NotFound), and a `Faults` record
  saying which store call, if any, fails this cycle and with which error
  code.  Beyond injected faults the store behaves like the Kubernetes
  API: `Get` of an absent object errs, `Create` of a present object errs.
-/

namespace Controllers

abbrev Bytes := List Nat

/-- `CloudSecretSpec`: the `Spec` of the custom resource.  `syncPeriod` is
`Spec.SyncPeriod` (a number of seconds); `data` is `Spec.Data`, the mapping
from logical key to external reference path. -/
structure CloudSecretSpec where
  syncPeriod : Nat
  data : List (Nat × Nat)
  deriving DecidableEq

/-- `CloudSecret`: the parent (desired-state) object.  `meta` stands for all
the fields `Reconcile` never touches (name, namespace, labels, ...). -/
structure CloudSecret where
  meta : Nat
  spec : CloudSecretSpec
  deriving DecidableEq

/-- `Secret` (`corev1.Secret`): the dependent object.  `meta` stands for every
field other than `Data` (metadata, identity, ownership, type); `data` is the
`Data` payload map. -/
structure Secret where
  meta : Nat
  data : List (Nat × Bytes)
  deriving DecidableEq

/-- One second in Go `time.Duration` units (nanoseconds). -/
def nsPerSecond : Nat := 1000000000

/-- `const defaultRetryTime = time.Duration(5) * time.Second`. -/
def defaultRetryTime : Nat := 5 * nsPerSecond

/-- Modelled from the spec: `InitChildSecret` is defined in the `api/v1`
package, which is not part of the controller source under scrutiny.  The
spec says it constructs an empty ManagedSecret owned by the DesiredSecret,
whose identity is a deterministic function of the parent's identity (same
namespace, a fixed naming transform of the name).  Accordingly the child's
`meta` is a fixed injective function of the parent's `meta` and its payload
starts empty. -/
def CloudSecret.InitChildSecret (cs : CloudSecret) : Secret :=
  { meta := cs.meta + 1, data := [] }

/-- Fault injection for the State Store: for each of the five store calls
`Reconcile` can make, `some e` means that call fails this cycle with error
code `e`, `none` that it behaves normally.  `parentGet = some e` is a
non-NotFound read error on the parent lookup (NotFound is expressed by
`Env.parent = none` instead); `childGet = some e` is a non-NotFound read
error on the child lookup. -/
structure Faults where
  parentGet : Option Nat
  childGet : Option Nat
  createErr : Option Nat
  updateErr : Option Nat
  deleteErr : Option Nat
  deriving DecidableEq

/-- The fault-free store environment. -/
def noFaults : Faults := ⟨none, none, none, none, none⟩

/-- The external world of one reconciliation cycle: the parent object the
store holds (`none` = NotFound), the injected store faults, and the Secret
Resolver's answer for each reference. -/
structure Env where
  parent : Option CloudSecret
  faults : Faults
  resolve : Nat → Option Bytes

/-- The observable outcome of one cycle: the returned `ctrl.Result`
(`requeueAfter`, in nanoseconds, `0` = no explicit requeue) and error, the
child slot of the store after the cycle, the list of references passed to
the Secret Resolver in loop order, and which store writes succeeded. -/
structure Outcome where
  requeueAfter : Nat
  error : Option Nat
  child : Option Secret
  resolverCalls : List Nat
  created : Bool
  deleted : Bool
  updated : Bool
  deriving DecidableEq

/-- One iteration of the resolution `for` loop: call the resolver on the
reference; on error set `getSecretFail` and skip the key, on success append
`(key, payload)` to the working payload.  The third component records the
reference passed to the resolver. -/
def resolveStep (res : Nat → Option Bytes) (acc : Bool × List (Nat × Bytes) × List Nat)
    (kv : Nat × Nat) : Bool × List (Nat × Bytes) × List Nat :=
  match res kv.2 with
  | none => (true, acc.2.1, acc.2.2 ++ [kv.2])
  | some b => (acc.1, acc.2.1 ++ [(kv.1, b)], acc.2.2 ++ [kv.2])

/-- The resolution loop of `Reconcile`: fold `resolveStep` over all
`(key, reference)` pairs starting from `getSecretFail = false` and a fresh
empty working payload (`childSecret.Data = make(map[string][]byte)`). -/
def resolveLoop (res : Nat → Option Bytes) (refs : List (Nat × Nat)) :
    Bool × List (Nat × Bytes) × List Nat :=
  refs.foldl (resolveStep res) (false, [], [])

/-- Closed form of the loop's failure flag: some reference failed to
resolve. -/
def anyFailed (res : Nat → Option Bytes) (refs : List (Nat × Nat)) : Bool :=
  refs.any fun kv => (res kv.2).isNone

/-- Closed form of the loop's working payload: the `(key, bytes)` pairs of
the references that resolved, in reference order. -/
def resolvedPayload (res : Nat → Option Bytes) (refs : List (Nat × Nat)) :
    List (Nat × Bytes) :=
  refs.filterMap fun kv => (res kv.2).map fun b => (kv.1, b)

/-- Error code the store returns when `Create` is called on an object that
already exists (the Kubernetes AlreadyExists error). -/
def alreadyExistsErr : Nat := 409

/-- Step 3 of the cycle: `Get` the child secret and, if that call returns
any error (the Go code does not distinguish NotFound from other read
errors here), construct `InitChildSecret` and `Create` it.  Returns the
working child together with a flag saying whether it was created this
cycle, or the store error that aborts the cycle.  On success the store's
child slot holds exactly the returned working child. -/
def ensureChild (faults : Faults) (cs : CloudSecret) (child0 : Option Secret) :
    Except Nat (Secret × Bool) :=
  match faults.childGet, child0 with
  | none, some c => .ok (c, false)
  | _, _ =>
    match faults.createErr with
    | some e => .error e
    | none =>
      match child0 with
      | some _ => .error alreadyExistsErr
      | none => .ok (cs.InitChildSecret, true)

/-- Steps 4–7 of the cycle, run with the working child `c1` (which the
store's child slot holds): return early on empty `Spec.Data`, otherwise run
the resolution loop, apply the retry-acceleration policy, and delete
(empty working payload) or update (otherwise) the child. -/
def ReconcileBody (res : Nat → Option Bytes) (faults : Faults) (cs : CloudSecret)
    (c1 : Secret) (created : Bool) : Outcome :=
  let recDelay := cs.spec.syncPeriod * nsPerSecond
  if cs.spec.data = [] then
    { requeueAfter := recDelay, error := none, child := some c1, resolverCalls := [],
      created := created, deleted := false, updated := false }
  else
    let r := resolveLoop res cs.spec.data
    let requeue := if r.1 ∧ defaultRetryTime < recDelay then defaultRetryTime else recDelay
    if r.2.1 = [] then
      match faults.deleteErr with
      | some e =>
        { requeueAfter := 0, error := some e, child := some c1, resolverCalls := r.2.2,
          created := created, deleted := false, updated := false }
      | none =>
        { requeueAfter := requeue, error := none, child := none, resolverCalls := r.2.2,
          created := created, deleted := true, updated := false }
    else
      match faults.updateErr with
      | some e =>
        { requeueAfter := 0, error := some e, child := some c1, resolverCalls := r.2.2,
          created := created, deleted := false, updated := false }
      | none =>
        { requeueAfter := requeue, error := none, child := some { c1 with data := r.2.1 },
          resolverCalls := r.2.2, created := created, deleted := false, updated := true }

/-- The whole `Reconcile` method, one cycle: fetch the parent (NotFound is
swallowed by `client.IgnoreNotFound`, any other error is returned with an
empty `ctrl.Result`), ensure the child exists, then run the body.  `child0`
is the store's child slot when the cycle starts. -/
def Reconcile (env : Env) (child0 : Option Secret) : Outcome :=
  match env.faults.parentGet with
  | some e =>
    { requeueAfter := 0, error := some e, child := child0, resolverCalls := [],
      created := false, deleted := false, updated := false }
  | none =>
    match env.parent with
    | none =>
      { requeueAfter := 0, error := none, child := child0, resolverCalls := [],
        created := false, deleted := false, updated := false }
    | some cs =>
      match ensureChild env.faults cs child0 with
      | .error e =>
        { requeueAfter := 0, error := some e, child := child0, resolverCalls := [],
          created := false, deleted := false, updated := false }
      | .ok (c1, created) => ReconcileBody env.resolve env.faults cs c1 created

/-! ### Closed form of the resolution loop -/

theorem foldl_resolveStep (res : Nat → Option Bytes) (refs : List (Nat × Nat))
    (fail : Bool) (data : List (Nat × Bytes)) (calls : List Nat) :
    List.foldl (resolveStep res) (fail, data, calls) refs =
      (fail || anyFailed res refs,
       data ++ resolvedPayload res refs,
       calls ++ refs.map Prod.snd) := by
  induction refs generalizing fail data calls with
  | nil => simp [anyFailed, resolvedPayload]
  | cons kv tl ih =>
    cases h : res kv.2 with
    | none =>
      simp [List.foldl_cons, resolveStep, h, ih, anyFailed, resolvedPayload,
        List.filterMap_cons, Bool.or_assoc]
    | some b =>
      simp [List.foldl_cons, resolveStep, h, ih, anyFailed, resolvedPayload,
        List.filterMap_cons, Bool.or_assoc]

theorem resolveLoop_eq (res : Nat → Option Bytes) (refs : List (Nat × Nat)) :
    resolveLoop res refs =
      (anyFailed res refs, resolvedPayload res refs, refs.map Prod.snd) := by
  simpa using foldl_resolveStep res refs false [] []

/-- Membership in the working payload, characterised by the resolver. -/
theorem mem_resolvedPayload (res : Nat → Option Bytes) (refs : List (Nat × Nat))
    (k : Nat) (b : Bytes) :
    (k, b) ∈ resolvedPayload res refs ↔ ∃ r, (k, r) ∈ refs ∧ res r = some b := by
  constructor
  · intro h
    rcases List.mem_filterMap.mp h with ⟨kv, hmem, heq⟩
    rcases Option.map_eq_some'.mp heq with ⟨b', hb', hpair⟩
    obtain ⟨h1, h2⟩ := Prod.mk.injEq .. ▸ hpair
    exact ⟨kv.2, by simpa [← h1] using hmem, by simpa [h2] using hb'⟩
  · rintro ⟨r, hmem, hres⟩
    exact List.mem_filterMap.mpr ⟨(k, r), hmem, by simp [hres]⟩

/-- In a list with pairwise-distinct keys (a Go map), a key determines its
reference. -/
theorem keyUnique {l : List (Nat × Nat)} (h : (l.map Prod.fst).Nodup)
    {k r r' : Nat} (h1 : (k, r) ∈ l) (h2 : (k, r') ∈ l) : r = r' := by
  induction l with
  | nil => cases h1
  | cons hd tl ih =>
    rw [List.map_cons, List.nodup_cons] at h
    rcases List.mem_cons.mp h1 with e1 | m1
    · rcases List.mem_cons.mp h2 with e2 | m2
      · rw [← e1] at e2; exact (Prod.mk.injEq .. ▸ e2).2.symm
      · exact absurd (List.mem_map.mpr ⟨(k, r'), m2, by rw [← e1]⟩) h.1
    · rcases List.mem_cons.mp h2 with e2 | m2
      · exact absurd (List.mem_map.mpr ⟨(k, r), m1, by rw [← e2]⟩) h.1
      · exact ih h.2 m1 m2

/-- All references failing makes the working payload empty. -/
theorem resolvedPayload_eq_nil (res : Nat → Option Bytes) (refs : List (Nat × Nat))
    (h : ∀ kv ∈ refs, res kv.2 = none) : resolvedPayload res refs = [] := by
  simp only [resolvedPayload, List.filterMap_eq_nil_iff]
  intro kv hkv
  simp [h kv hkv]

/-- A non-empty reference list that all fails sets the failure flag. -/
theorem anyFailed_of_all_fail (res : Nat → Option Bytes) (refs : List (Nat × Nat))
    (hne : refs ≠ []) (h : ∀ kv ∈ refs, res kv.2 = none) : anyFailed res refs = true := by
  cases refs with
  | nil => exact absurd rfl hne
  | cons kv tl => simp [anyFailed, h kv (List.mem_cons_self kv tl)]

/-! ### Claim theorems -/

/-- C7: when the DesiredSecret lookup reports NotFound, `Reconcile`
terminates successfully with `requeueAfter = 0` and a `nil` error, performs
no store write and never calls the Secret Resolver; any other failure of
this lookup is surfaced as an error with no explicit `requeueAfter` set. -/
theorem C7_parent_notFound (env : Env) (child0 : Option Secret)
    (hp : env.parent = none) :
    (env.faults.parentGet = none →
      Reconcile env child0 =
        { requeueAfter := 0, error := none, child := child0, resolverCalls := [],
          created := false, deleted := false, updated := false }) ∧
    (∀ e, env.faults.parentGet = some e →
      (Reconcile env child0).error = some e ∧
      (Reconcile env child0).requeueAfter = 0 ∧
      (Reconcile env child0).child = child0 ∧
      (Reconcile env child0).resolverCalls = []) := by
  refine ⟨fun hpg => ?_, fun e hpg => ?_⟩
  · simp [Reconcile, hpg, hp]
  · simp [Reconcile, hpg]

theorem C7_parent_notFound_witness :
    ((⟨none, noFaults, fun _ => none⟩ : Env).parent = none) ∧
    (((⟨none, noFaults, fun _ => none⟩ : Env).faults.parentGet = none →
      Reconcile ⟨none, noFaults, fun _ => none⟩ none =
        { requeueAfter := 0, error := none, child := none, resolverCalls := [],
          created := false, deleted := false, updated := false }) ∧
    (∀ e, (⟨none, noFaults, fun _ => none⟩ : Env).faults.parentGet = some e →
      (Reconcile ⟨none, noFaults, fun _ => none⟩ none).error = some e ∧
      (Reconcile ⟨none, noFaults, fun _ => none⟩ none).requeueAfter = 0 ∧
      (Reconcile ⟨none, noFaults, fun _ => none⟩ none).child = none ∧
      (Reconcile ⟨none, noFaults, fun _ => none⟩ none).resolverCalls = [])) :=
  ⟨rfl, C7_parent_notFound ⟨none, noFaults, fun _ => none⟩ none rfl⟩

/-- Helper for C8: the body returns `requeueAfter = 0` whenever it returns a
non-nil error. -/
theorem ReconcileBody_error_requeue (res : Nat → Option Bytes) (faults : Faults)
    (cs : CloudSecret) (c1 : Secret) (created : Bool) (e : Nat)
    (he : (ReconcileBody res faults cs c1 created).error = some e) :
    (ReconcileBody res faults cs c1 created).requeueAfter = 0 := by
  by_cases hd : cs.spec.data = []
  · simp [ReconcileBody, hd] at he
  · rcases hde : faults.deleteErr with _ | e1 <;> rcases hue : faults.updateErr with _ | e2 <;>
      by_cases hp : (resolveLoop res cs.spec.data).2.1 = [] <;>
      simp [ReconcileBody, hd, hde, hue, hp] at he ⊢

/-- C8: whenever `Reconcile` returns a non-nil error, the returned
`requeueAfter` is `0` (the empty `ctrl.Result{}`), so the framework's
default backoff applies instead of the computed interval. -/
theorem C8_error_means_no_requeue (env : Env) (child0 : Option Secret) (e : Nat)
    (he : (Reconcile env child0).error = some e) :
    (Reconcile env child0).requeueAfter = 0 := by
  unfold Reconcile at he ⊢
  rcases hpg : env.faults.parentGet with _ | e0 <;> simp only [hpg] at he ⊢
  rcases hp : env.parent with _ | cs <;> simp only [hp] at he ⊢
  rcases hec : ensureChild env.faults cs child0 with e1 | ⟨c1, created⟩ <;>
    simp only [hec] at he ⊢
  exact ReconcileBody_error_requeue _ _ _ _ _ _ he

theorem C8_error_means_no_requeue_witness :
    ((Reconcile ⟨none, ⟨some 3, none, none, none, none⟩, fun _ => none⟩ none).error = some 3) ∧
    (Reconcile ⟨none, ⟨some 3, none, none, none, none⟩, fun _ => none⟩ none).requeueAfter = 0 :=
  ⟨rfl, C8_error_means_no_requeue ⟨none, ⟨some 3, none, none, none, none⟩, fun _ => none⟩ none 3 rfl⟩

/-- Characterisation of a cycle that completes without a store error on a
parent with a non-empty reference list: all references are passed to the
resolver in order, the returned interval follows the acceleration policy,
and the child is either deleted (empty working payload) or updated to carry
exactly the working payload. -/
theorem Reconcile_ok_run (env : Env) (child0 : Option Secret) (cs : CloudSecret)
    (hp : env.parent = some cs) (hne : cs.spec.data ≠ [])
    (hok : (Reconcile env child0).error = none) :
    (Reconcile env child0).resolverCalls = cs.spec.data.map Prod.snd ∧
    (Reconcile env child0).requeueAfter =
      (if anyFailed env.resolve cs.spec.data ∧
          defaultRetryTime < cs.spec.syncPeriod * nsPerSecond
       then defaultRetryTime else cs.spec.syncPeriod * nsPerSecond) ∧
    ((resolvedPayload env.resolve cs.spec.data = [] ∧
        (Reconcile env child0).child = none ∧ (Reconcile env child0).deleted = true) ∨
     (resolvedPayload env.resolve cs.spec.data ≠ [] ∧
        (∃ c1, ensureChild env.faults cs child0 = .ok (c1, (Reconcile env child0).created) ∧
          (Reconcile env child0).child =
            some { c1 with data := resolvedPayload env.resolve cs.spec.data }) ∧
        (Reconcile env child0).updated = true)) := by
  unfold Reconcile at hok ⊢
  rcases hpg : env.faults.parentGet with _ | e0 <;> simp only [hpg] at hok ⊢
  · simp only [hp] at hok ⊢
    rcases hec : ensureChild env.faults cs child0 with e1 | ⟨c1, created⟩ <;>
      simp only [hec] at hok ⊢
    · simp at hok
    · simp only [ReconcileBody, resolveLoop_eq] at hok ⊢
      by_cases hemp : resolvedPayload env.resolve cs.spec.data = [] <;>
        rcases hde : env.faults.deleteErr with _ | ed <;>
        rcases hue : env.faults.updateErr with _ | eu <;>
        simp [hne, hemp, hde, hue] at hok ⊢
  · simp at hok

/-- C1: in a cycle on non-empty references that completes without a store
error, every `(key, ref)` pair is attempted against the resolver (in loop
order, no short-circuit), a key carries the resolver's bytes in the working
payload iff its reference resolved, and every key of the persisted child
payload is a reference key. -/
theorem C1_no_short_circuit (env : Env) (child0 : Option Secret) (cs : CloudSecret)
    (hp : env.parent = some cs) (hne : cs.spec.data ≠ [])
    (hok : (Reconcile env child0).error = none) :
    (Reconcile env child0).resolverCalls = cs.spec.data.map Prod.snd ∧
    (∀ k b, (k, b) ∈ resolvedPayload env.resolve cs.spec.data ↔
      ∃ r, (k, r) ∈ cs.spec.data ∧ env.resolve r = some b) ∧
    (∀ c, (Reconcile env child0).child = some c →
      ∀ k b, (k, b) ∈ c.data → ∃ r, (k, r) ∈ cs.spec.data) := by
  obtain ⟨hcalls, -, hchild⟩ := Reconcile_ok_run env child0 cs hp hne hok
  refine ⟨hcalls, fun k b => mem_resolvedPayload env.resolve cs.spec.data k b, ?_⟩
  intro c hc k b hkb
  rcases hchild with ⟨hemp, hnone, -⟩ | ⟨hnemp, ⟨c1, -, hsome⟩, -⟩
  · rw [hnone] at hc; cases hc
  · rw [hsome] at hc
    injection hc with hc'
    rcases (mem_resolvedPayload env.resolve cs.spec.data k b).mp
        (by simpa [← hc'] using hkb) with ⟨r, hr, -⟩
    exact ⟨r, hr⟩

def csW1 : CloudSecret := ⟨0, ⟨60, [(1, 10), (2, 20)]⟩⟩

def envW1 : Env := ⟨some csW1, noFaults, fun r => if r = 10 then some [7] else none⟩

theorem C1_no_short_circuit_witness :
    (envW1.parent = some csW1 ∧ csW1.spec.data ≠ [] ∧
      (Reconcile envW1 none).error = none) ∧
    ((Reconcile envW1 none).resolverCalls = csW1.spec.data.map Prod.snd ∧
    (∀ k b, (k, b) ∈ resolvedPayload envW1.resolve csW1.spec.data ↔
      ∃ r, (k, r) ∈ csW1.spec.data ∧ envW1.resolve r = some b) ∧
    (∀ c, (Reconcile envW1 none).child = some c →
      ∀ k b, (k, b) ∈ c.data → ∃ r, (k, r) ∈ csW1.spec.data)) :=
  ⟨⟨rfl, by decide, by decide⟩,
    C1_no_short_circuit envW1 none csW1 rfl (by decide) (by decide)⟩

/-- C3: in a cycle on non-empty references that completes without a store
error, if some resolution failed and `syncPeriod` exceeds the 5 s floor the
returned interval is exactly 5 s; if some resolution failed and
`syncPeriod` is at most the floor the interval is `syncPeriod` unchanged;
if nothing failed the interval is `syncPeriod`. -/
theorem C3_retry_acceleration (env : Env) (child0 : Option Secret) (cs : CloudSecret)
    (hp : env.parent = some cs) (hne : cs.spec.data ≠ [])
    (hok : (Reconcile env child0).error = none) :
    (anyFailed env.resolve cs.spec.data = true →
        defaultRetryTime < cs.spec.syncPeriod * nsPerSecond →
        (Reconcile env child0).requeueAfter = defaultRetryTime) ∧
    (anyFailed env.resolve cs.spec.data = true →
        cs.spec.syncPeriod * nsPerSecond ≤ defaultRetryTime →
        (Reconcile env child0).requeueAfter = cs.spec.syncPeriod * nsPerSecond) ∧
    (anyFailed env.resolve cs.spec.data = false →
        (Reconcile env child0).requeueAfter = cs.spec.syncPeriod * nsPerSecond) := by
  obtain ⟨-, hreq, -⟩ := Reconcile_ok_run env child0 cs hp hne hok
  refine ⟨fun hf hlt => ?_, fun hf hle => ?_, fun hf => ?_⟩
  · rw [hreq, if_pos ⟨hf, hlt⟩]
  · rw [hreq, if_neg fun h => absurd h.2 (not_lt.mpr hle)]
  · rw [hreq, if_neg fun h => by rw [hf] at h; cases h.1]

def csW3 : CloudSecret := ⟨0, ⟨60, [(1, 10), (2, 20)]⟩⟩

def envW3 : Env := ⟨some csW3, noFaults, fun r => if r = 10 then some [7] else none⟩

theorem C3_retry_acceleration_witness :
    (envW3.parent = some csW3 ∧ csW3.spec.data ≠ [] ∧
      (Reconcile envW3 none).error = none) ∧
    ((anyFailed envW3.resolve csW3.spec.data = true →
        defaultRetryTime < csW3.spec.syncPeriod * nsPerSecond →
        (Reconcile envW3 none).requeueAfter = defaultRetryTime) ∧
    (anyFailed envW3.resolve csW3.spec.data = true →
        csW3.spec.syncPeriod * nsPerSecond ≤ defaultRetryTime →
        (Reconcile envW3 none).requeueAfter = csW3.spec.syncPeriod * nsPerSecond) ∧
    (anyFailed envW3.resolve csW3.spec.data = false →
        (Reconcile envW3 none).requeueAfter = csW3.spec.syncPeriod * nsPerSecond)) :=
  ⟨⟨rfl, by decide, by decide⟩,
    C3_retry_acceleration envW3 none csW3 rfl (by decide) (by decide)⟩

/-- C5: a fault-free cycle (up to the delete call) on non-empty references
where every resolution fails deletes the child: on delete success the cycle
ends with no error, the child gone and the accelerated interval; on delete
failure the error is surfaced with `requeueAfter = 0` and no update was
performed. -/
theorem C5_total_failure_deletes (env : Env) (child0 : Option Secret) (cs : CloudSecret)
    (hp : env.parent = some cs)
    (hpg : env.faults.parentGet = none)
    (hcg : env.faults.childGet = none)
    (hcr : env.faults.createErr = none)
    (hne : cs.spec.data ≠ [])
    (hall : ∀ kv ∈ cs.spec.data, env.resolve kv.2 = none) :
    (env.faults.deleteErr = none →
      (Reconcile env child0).error = none ∧ (Reconcile env child0).child = none ∧
      (Reconcile env child0).deleted = true ∧
      (Reconcile env child0).requeueAfter =
        (if defaultRetryTime < cs.spec.syncPeriod * nsPerSecond then defaultRetryTime
         else cs.spec.syncPeriod * nsPerSecond)) ∧
    (∀ e, env.faults.deleteErr = some e →
      (Reconcile env child0).error = some e ∧ (Reconcile env child0).requeueAfter = 0 ∧
      (Reconcile env child0).updated = false ∧ (Reconcile env child0).deleted = false) := by
  have hemp := resolvedPayload_eq_nil env.resolve cs.spec.data hall
  have hfail := anyFailed_of_all_fail env.resolve cs.spec.data hne hall
  refine ⟨fun hde => ?_, fun e hde => ?_⟩ <;>
    rcases child0 with _ | c <;>
    simp [Reconcile, ReconcileBody, ensureChild, hp, hpg, hcg, hcr, hne, hde,
      resolveLoop_eq, hemp, hfail]

def csW5 : CloudSecret := ⟨0, ⟨60, [(1, 10)]⟩⟩

def envW5 : Env := ⟨some csW5, noFaults, fun _ => none⟩

theorem C5_total_failure_deletes_witness :
    (envW5.parent = some csW5 ∧ envW5.faults.parentGet = none ∧
      envW5.faults.childGet = none ∧ envW5.faults.createErr = none ∧
      csW5.spec.data ≠ [] ∧ ∀ kv ∈ csW5.spec.data, envW5.resolve kv.2 = none) ∧
    ((envW5.faults.deleteErr = none →
      (Reconcile envW5 (some ⟨1, [(1, [5])]⟩)).error = none ∧
      (Reconcile envW5 (some ⟨1, [(1, [5])]⟩)).child = none ∧
      (Reconcile envW5 (some ⟨1, [(1, [5])]⟩)).deleted = true ∧
      (Reconcile envW5 (some ⟨1, [(1, [5])]⟩)).requeueAfter =
        (if defaultRetryTime < csW5.spec.syncPeriod * nsPerSecond then defaultRetryTime
         else csW5.spec.syncPeriod * nsPerSecond)) ∧
    (∀ e, envW5.faults.deleteErr = some e →
      (Reconcile envW5 (some ⟨1, [(1, [5])]⟩)).error = some e ∧
      (Reconcile envW5 (some ⟨1, [(1, [5])]⟩)).requeueAfter = 0 ∧
      (Reconcile envW5 (some ⟨1, [(1, [5])]⟩)).updated = false ∧
      (Reconcile envW5 (some ⟨1, [(1, [5])]⟩)).deleted = false)) :=
  ⟨⟨rfl, rfl, rfl, rfl, by decide, by decide⟩,
    C5_total_failure_deletes envW5 (some ⟨1, [(1, [5])]⟩) csW5 rfl rfl rfl rfl
      (by decide) (by decide)⟩

/-- C6: a cycle whose parent is found and has an empty reference mapping
terminates successfully with the base interval `syncPeriod`, never calls
the resolver, never deletes or updates the child, and leaves the stored
child as it was (creating it empty only when it was absent). -/
theorem C6_no_references_noop (env : Env) (child0 : Option Secret) (cs : CloudSecret)
    (hp : env.parent = some cs)
    (hpg : env.faults.parentGet = none)
    (hcg : env.faults.childGet = none)
    (hcr : env.faults.createErr = none)
    (hempty : cs.spec.data = []) :
    (Reconcile env child0).error = none ∧
    (Reconcile env child0).requeueAfter = cs.spec.syncPeriod * nsPerSecond ∧
    (Reconcile env child0).resolverCalls = [] ∧
    (Reconcile env child0).deleted = false ∧
    (Reconcile env child0).updated = false ∧
    (Reconcile env child0).child = some (child0.getD cs.InitChildSecret) ∧
    (child0.isSome = true → (Reconcile env child0).created = false) := by
  rcases child0 with _ | c <;>
    simp [Reconcile, ReconcileBody, ensureChild, hp, hpg, hcg, hcr, hempty]

def csW6 : CloudSecret := ⟨5, ⟨60, []⟩⟩

def envW6 : Env := ⟨some csW6, noFaults, fun _ => none⟩

theorem C6_no_references_noop_witness :
    (envW6.parent = some csW6 ∧ envW6.faults.parentGet = none ∧
      envW6.faults.childGet = none ∧ envW6.faults.createErr = none ∧
      csW6.spec.data = []) ∧
    ((Reconcile envW6 (some ⟨9, [(1, [2])]⟩)).error = none ∧
    (Reconcile envW6 (some ⟨9, [(1, [2])]⟩)).requeueAfter =
      csW6.spec.syncPeriod * nsPerSecond ∧
    (Reconcile envW6 (some ⟨9, [(1, [2])]⟩)).resolverCalls = [] ∧
    (Reconcile envW6 (some ⟨9, [(1, [2])]⟩)).deleted = false ∧
    (Reconcile envW6 (some ⟨9, [(1, [2])]⟩)).updated = false ∧
    (Reconcile envW6 (some ⟨9, [(1, [2])]⟩)).child =
      some ((some ⟨9, [(1, [2])]⟩ : Option Secret).getD csW6.InitChildSecret) ∧
    ((some ⟨9, [(1, [2])]⟩ : Option Secret).isSome = true →
      (Reconcile envW6 (some ⟨9, [(1, [2])]⟩)).created = false)) :=
  ⟨⟨rfl, rfl, rfl, rfl, rfl⟩,
    C6_no_references_noop envW6 (some ⟨9, [(1, [2])]⟩) csW6 rfl rfl rfl rfl rfl⟩

/-- If the store held a child and `ensureChild` succeeds, the working child
is exactly the stored one and nothing was created. -/
theorem ensureChild_some (faults : Faults) (cs : CloudSecret) (c0 c1 : Secret)
    (created : Bool) (h : ensureChild faults cs (some c0) = .ok (c1, created)) :
    c1 = c0 ∧ created = false := by
  rcases hcg : faults.childGet with _ | e
  · simp [ensureChild, hcg] at h
    exact ⟨h.1.symm, h.2⟩
  · rcases hce : faults.createErr with _ | e2 <;> simp [ensureChild, hcg, hce] at h

/-- The working child `ensureChild` hands to the body carries the stored
child's non-payload fields, or the freshly initialised ones when the child
was absent. -/
theorem ensureChild_meta (faults : Faults) (cs : CloudSecret) (child0 : Option Secret)
    (c1 : Secret) (created : Bool)
    (h : ensureChild faults cs child0 = .ok (c1, created)) :
    c1.meta = (child0.getD cs.InitChildSecret).meta := by
  rcases child0 with _ | c0
  · rcases hce : faults.createErr with _ | e2 <;>
      rcases hcg : faults.childGet with _ | e <;>
      simp [ensureChild, hcg, hce] at h <;>
      simp [← h.1]
  · obtain ⟨rfl, -⟩ := ensureChild_some faults cs c0 c1 created h
    rfl

/-- C4: when the stored child held a non-empty payload and the current
cycle resolves some references but not others, the persisted payload is
replaced in full: it equals the pairs resolved this cycle, and a key whose
reference failed this cycle is absent even though it held a value before. -/
theorem C4_replace_not_merge (env : Env) (child0 : Option Secret) (c0 : Secret)
    (cs : CloudSecret)
    (hp : env.parent = some cs)
    (hc0 : child0 = some c0) (hprev : c0.data ≠ [])
    (hnodup : (cs.spec.data.map Prod.fst).Nodup)
    (hsome : resolvedPayload env.resolve cs.spec.data ≠ [])
    (hok : (Reconcile env child0).error = none) :
    (Reconcile env child0).child =
      some { c0 with data := resolvedPayload env.resolve cs.spec.data } ∧
    (∀ k r, (k, r) ∈ cs.spec.data → env.resolve r = none →
      ∀ b, (k, b) ∉ resolvedPayload env.resolve cs.spec.data) := by
  subst hc0
  have hne : cs.spec.data ≠ [] := by
    intro h
    exact hsome (by simp [resolvedPayload, h])
  obtain ⟨-, -, hchild⟩ := Reconcile_ok_run env (some c0) cs hp hne hok
  rcases hchild with ⟨hemp, -, -⟩ | ⟨-, ⟨c1, hec, hupd⟩, -⟩
  · exact absurd hemp hsome
  · obtain ⟨rfl, -⟩ := ensureChild_some env.faults cs c0 c1 _ hec
    refine ⟨hupd, ?_⟩
    intro k r hkr hres b hb
    rcases (mem_resolvedPayload env.resolve cs.spec.data k b).mp hb with ⟨r2, hr2, hres2⟩
    rw [keyUnique hnodup hr2 hkr, hres] at hres2
    cases hres2

def csW4 : CloudSecret := ⟨0, ⟨60, [(1, 10), (2, 20)]⟩⟩

def envW4 : Env := ⟨some csW4, noFaults, fun r => if r = 10 then some [7] else none⟩

theorem C4_replace_not_merge_witness :
    (envW4.parent = some csW4 ∧
      (some (⟨3, [(1, [1]), (2, [2])]⟩ : Secret) : Option Secret) =
        some ⟨3, [(1, [1]), (2, [2])]⟩ ∧
      (⟨3, [(1, [1]), (2, [2])]⟩ : Secret).data ≠ [] ∧
      (csW4.spec.data.map Prod.fst).Nodup ∧
      resolvedPayload envW4.resolve csW4.spec.data ≠ [] ∧
      (Reconcile envW4 (some ⟨3, [(1, [1]), (2, [2])]⟩)).error = none) ∧
    ((Reconcile envW4 (some ⟨3, [(1, [1]), (2, [2])]⟩)).child =
      some { (⟨3, [(1, [1]), (2, [2])]⟩ : Secret) with
        data := resolvedPayload envW4.resolve csW4.spec.data } ∧
    (∀ k r, (k, r) ∈ csW4.spec.data → envW4.resolve r = none →
      ∀ b, (k, b) ∉ resolvedPayload envW4.resolve csW4.spec.data)) :=
  ⟨⟨rfl, rfl, by decide, by decide, by decide, by decide⟩,
    C4_replace_not_merge envW4 (some ⟨3, [(1, [1]), (2, [2])]⟩)
      ⟨3, [(1, [1]), (2, [2])]⟩ csW4 rfl rfl (by decide) (by decide) (by decide) (by decide)⟩

/-- C10: on the update path, only the `Data` field of the working child is
replaced before persisting: the persisted child carries the non-payload
fields of the child as fetched this cycle (or as freshly initialised when
it was created this cycle) together with the resolved payload. -/
theorem C10_update_only_data (env : Env) (child0 : Option Secret) (cs : CloudSecret)
    (hp : env.parent = some cs)
    (hu : (Reconcile env child0).updated = true) :
    (Reconcile env child0).child =
      some { meta := (child0.getD cs.InitChildSecret).meta,
             data := resolvedPayload env.resolve cs.spec.data } := by
  unfold Reconcile at hu ⊢
  rcases hpg : env.faults.parentGet with _ | e0 <;> simp only [hpg] at hu ⊢
  · simp only [hp] at hu ⊢
    rcases hec : ensureChild env.faults cs child0 with e1 | ⟨c1, created⟩ <;>
      simp only [hec] at hu ⊢
    · cases hu
    · have hm := ensureChild_meta env.faults cs child0 c1 created hec
      by_cases hd : cs.spec.data = []
      · simp [ReconcileBody, hd] at hu
      · simp only [ReconcileBody, resolveLoop_eq] at hu ⊢
        by_cases hemp : resolvedPayload env.resolve cs.spec.data = [] <;>
          rcases hde : env.faults.deleteErr with _ | ed <;>
          rcases hue : env.faults.updateErr with _ | eu <;>
          simp [hd, hemp, hde, hue, hm] at hu ⊢
  · cases hu

theorem C10_update_only_data_witness :
    (envW1.parent = some csW1 ∧
      (Reconcile envW1 (some ⟨3, [(2, [9])]⟩)).updated = true) ∧
    (Reconcile envW1 (some ⟨3, [(2, [9])]⟩)).child =
      some { meta := ((some ⟨3, [(2, [9])]⟩ : Option Secret).getD csW1.InitChildSecret).meta,
             data := resolvedPayload envW1.resolve csW1.spec.data } :=
  ⟨⟨rfl, by decide⟩,
    C10_update_only_data envW1 (some ⟨3, [(2, [9])]⟩) csW1 rfl (by decide)⟩

/-- C9: reconciliation is idempotent on the stored child: with a fault-free
store and the resolver answering identically, running a second cycle on the
store state the first one left behind yields the same stored child (hence
the same ManagedSecret payload) again. -/
theorem C9_idempotent (parent : Option CloudSecret) (res : Nat → Option Bytes)
    (child0 : Option Secret) :
    (Reconcile ⟨parent, noFaults, res⟩
        ((Reconcile ⟨parent, noFaults, res⟩ child0).child)).child
      = (Reconcile ⟨parent, noFaults, res⟩ child0).child := by
  rcases parent with _ | cs
  · simp [Reconcile, noFaults]
  · by_cases hd : cs.spec.data = []
    · rcases child0 with _ | c <;>
        simp [Reconcile, ReconcileBody, ensureChild, noFaults, hd]
    · by_cases hemp : resolvedPayload res cs.spec.data = [] <;>
        rcases child0 with _ | c <;>
        simp [Reconcile, ReconcileBody, ensureChild, noFaults, resolveLoop_eq, hd, hemp]

def csW2 : CloudSecret := ⟨0, ⟨60, []⟩⟩

def envW2 : Env := ⟨some csW2, ⟨none, some 7, none, none, none⟩, fun _ => none⟩

/-- C2: counter to the claim, when the child lookup fails with a
non-NotFound read error (injected code 7) and the child is absent, the code
does not return that error: it falls into the creation branch, creates the
child and completes the cycle successfully with the base interval. -/
theorem C2_childGet_error_not_propagated :
    (Reconcile envW2 none).error = none ∧ (Reconcile envW2 none).created = true ∧
    (Reconcile envW2 none).child = some csW2.InitChildSecret ∧
    (Reconcile envW2 none).requeueAfter = 60 * nsPerSecond := by decide

end Controllers
